import Mathlib

/-
Verification of the per-device synchronization loop of wand's diagnostics
client (src/wand/gui.py, class LaserDisplay).

The embedding below translates the relevant parts of `LaserDisplay.loop`
and the callback dispatch helpers into pure Lean functions:
  - timestamps and durations (python floats produced by time.time()) are
    modelled as rationals;
  - the edit queue `self.cb_queue` (a python list of tuples such as
    ("fast_mode",) or ("exposure", ccd)) is a list of `Intent`s;
  - remote procedure calls issued through the RPC client are reified as
    values of `RemoteCall`; a call that raises is modelled by a failure
    oracle `fails : RemoteCall -> Bool`;
  - the connection-handle lifecycle at the top of the outer loop (lines
    207-231) is modelled on the list of handles the loop has ever created,
    each with its open/closed status.
-/

namespace Wand

/-- Priority constant REGULAR_UPDATE_PRIORITY = 3 (src/wand/gui.py line 18). -/
def REGULAR_UPDATE_PRIORITY : ℕ := 3

/-- Priority constant FAST_MODE_PRIORITY = 2 (src/wand/gui.py line 19). -/
def FAST_MODE_PRIORITY : ℕ := 2

/-- Modelled from the spec: the control server's scheduler (wand/server.py,
not included under src/) services pending measurement requests for
numerically smaller priority values first, so priority `p` denotes strictly
higher urgency than priority `q` exactly when `p < q`. -/
def outranks (p q : ℕ) : Prop := p < q

instance (p q : ℕ) : Decidable (outranks p q) := by
  unfold outranks; infer_instance

/-- Widget state read at drain time: the dispatch callbacks re-read the
current value of each control (`self.fast_mode.isChecked()`,
`self.f_ref.value()`, `self.exposure[ccd].value()`, ...) rather than using
a value captured when the intent was enqueued. -/
structure GuiState where
  fast_mode_checked : Bool
  auto_exposure_checked : Bool
  f_ref_value : ℚ
  exposure_value : ℕ → ℤ

/-- One pending edit intent, the python tuple appended to `self.cb_queue`
by `add_async_cb`: `("fast_mode",)`, `("auto_expose",)`, `("f_ref",)` or
`("exposure", ccd)`. The second tuple slot is only present (and only read)
for exposure intents; it defaults to 0 here. -/
structure Intent where
  tag : String
  arg : ℕ := 0
deriving DecidableEq, Repr

/-- Remote procedure calls issued by the loop through the RPC client. -/
inductive RemoteCall where
  | set_fast_mode (laser : String) (v : Bool)
  | set_auto_exposure (laser : String) (v : Bool)
  | set_reference_freq (laser : String) (hz : ℚ)
  | set_exposure (laser : String) (value : ℤ) (ccd : ℕ)
  | get_freq (laser : String) (age : ℚ) (priority : ℕ)
      (get_osa_trace : Bool) (blocking : Bool) (mute : Bool)
deriving DecidableEq, Repr

/-- Dispatch of one intent (src/wand/gui.py lines 240-247): a first `if`
handles "fast_mode", then an `if / elif / elif` chain handles
"auto_expose", "f_ref" and "exposure".  The payload of each call is the
current widget value (see `fast_mode_cb`, `auto_expose_cb`, `f_ref_cb`,
`exposure_cb`, lines 282-303); `f_ref_cb` scales THz to Hz by 1e12.
Returns the list of remote calls the dispatch performs, in order. -/
def cbCalls (gui : GuiState) (laser : String) (cb : Intent) : List RemoteCall :=
  (if cb.tag = "fast_mode" then
      [RemoteCall.set_fast_mode laser gui.fast_mode_checked]
    else []) ++
  (if cb.tag = "auto_expose" then
      [RemoteCall.set_auto_exposure laser gui.auto_exposure_checked]
    else if cb.tag = "f_ref" then
      [RemoteCall.set_reference_freq laser (gui.f_ref_value * 1000000000000)]
    else if cb.tag = "exposure" then
      [RemoteCall.set_exposure laser (gui.exposure_value cb.arg) cb.arg]
    else [])

/-- Attempt a list of remote calls in order; the first call for which the
failure oracle returns true raises, aborting the rest.  Returns the calls
attempted (the raising call included) and whether all succeeded. -/
def runCalls (fails : RemoteCall → Bool) : List RemoteCall → List RemoteCall × Bool
  | [] => ([], true)
  | c :: cs =>
      if fails c then ([c], false)
      else
        let r := runCalls fails cs
        (c :: r.1, r.2)

/-- The drain loop (src/wand/gui.py lines 238-248):

    while self.cb_queue:
        next_cb = self.cb_queue[0]
        ... dispatch next_cb ...
        del self.cb_queue[0]

Each iteration reads the head, dispatches it, and only then deletes it.
If a dispatch raises, the `del` is not reached and the exception
propagates, ending the drain with the queue from the failed intent onward
still in place.  Returns (calls attempted in order, remaining queue,
whether the drain completed without an exception). -/
def drain (fails : RemoteCall → Bool) (gui : GuiState) (laser : String) :
    List Intent → List RemoteCall × List Intent × Bool
  | [] => ([], [], true)
  | cb :: rest =>
      let r := runCalls fails (cbCalls gui laser cb)
      if r.2 then
        let d := drain fails gui laser rest
        (r.1 ++ d.1, d.2.1, d.2.2)
      else
        (r.1, cb :: rest, false)

/-- The staleness computation (src/wand/gui.py lines 261-262):
`data_expiry = data_timestamp + poll_time` and
`next_measurement_in = data_expiry - time.time()`. -/
def next_measurement_in (data_timestamp poll_time now : ℚ) : ℚ :=
  data_timestamp + poll_time - now

/-- Command-line arguments carrying the two configured poll intervals. -/
structure Args where
  poll_time_fast : ℚ
  poll_time : ℚ

/-- Poll interval and priority selection (src/wand/gui.py lines 251-256):
fast mode checked selects `poll_time_fast` with FAST_MODE_PRIORITY,
otherwise `poll_time` with REGULAR_UPDATE_PRIORITY. -/
def pollChoice (fastChecked : Bool) (args : Args) : ℚ × ℕ :=
  if fastChecked then (args.poll_time_fast, FAST_MODE_PRIORITY)
  else (args.poll_time, REGULAR_UPDATE_PRIORITY)

/-- The refresh step (src/wand/gui.py lines 251-270): select poll interval
and priority from the fast-mode checkbox, take the governing timestamp as
the minimum of the frequency-measurement and trace timestamps, compute
`next_measurement_in`, and if it is ≤ 0 issue a blocking `get_freq`
request and reset `next_measurement_in` to the full poll interval.
Returns (the request to issue, if any; the resulting value of
`next_measurement_in`). -/
def refreshStep (gui : GuiState) (args : Args) (laser : String)
    (freq_ts osa_ts now : ℚ) : Option RemoteCall × ℚ :=
  let pc := pollChoice gui.fast_mode_checked args
  let data_timestamp := min freq_ts osa_ts
  let nmi := next_measurement_in data_timestamp pc.1 now
  if nmi ≤ 0 then
    (some (RemoteCall.get_freq laser pc.1 pc.2 true true true), pc.1)
  else
    (none, nmi)

/-- Outcome of one inner-cycle iteration body (the two try blocks,
src/wand/gui.py lines 236-280). -/
structure InnerOutcome where
  calls : List RemoteCall
  logs : List String
  sleeps : List ℚ
  queue : List Intent
  waitTimeout : Option ℚ
deriving Repr

/-- One iteration of the inner (connected) cycle (src/wand/gui.py lines
234-280): drain the callback queue, then run the refresh step; any
exception raised by either is caught by the bare `except Exception:`
handler (lines 272-274), whose body is `await asyncio.sleep(0.1)` then
`continue` — in particular it logs nothing.  When no exception occurs the
iteration falls through to `asyncio.wait_for(self.wake_loop.wait(),
next_measurement_in)`.  The outcome records the remote calls attempted,
the log lines emitted, the sleeps performed, the queue left behind, and
the wait timeout reached (none when the iteration restarted via the
backoff path). -/
def innerCycleStep (fails : RemoteCall → Bool) (gui : GuiState) (args : Args)
    (laser : String) (queue : List Intent) (freq_ts osa_ts now : ℚ) :
    InnerOutcome :=
  let d := drain fails gui laser queue
  if d.2.2 then
    let r := refreshStep gui args laser freq_ts osa_ts now
    match r.1 with
    | some c =>
        if fails c then
          { calls := d.1 ++ [c], logs := [], sleeps := [1/10],
            queue := d.2.1, waitTimeout := none }
        else
          { calls := d.1 ++ [c], logs := [], sleeps := [],
            queue := d.2.1, waitTimeout := some r.2 }
    | none =>
        { calls := d.1, logs := [], sleeps := [],
          queue := d.2.1, waitTimeout := some r.2 }
  else
    { calls := d.1, logs := [], sleeps := [1/10],
      queue := d.2.1, waitTimeout := none }

/-- Connection handles ever created by one device loop, oldest first, each
with its open/closed status: every `RPCClient()` assigned to `self.client`
appends an entry, and `self.client` always refers to the last entry. -/
def liveCount (hs : List Bool) : ℕ := hs.count true

/-- Semantics of `self.client.close_rpc()`: raises (returns none) when the
`client` attribute was never set (no RPCClient created yet, so an
AttributeError); otherwise closes the current handle — a no-op when it was
never opened or already closed. -/
def close_rpc : List Bool → Option (List Bool)
  | [] => none
  | hs => some (hs.dropLast ++ [false])

/-- The guarded close at the top of every outer iteration (src/wand/gui.py
lines 210-213): `try: self.client.close_rpc() except Exception: pass`.
Returns the resulting handle list and whether an exception escaped the
guard (never, because of the bare `except Exception: pass`). -/
def guardedClose (hs : List Bool) : List Bool × Bool :=
  match close_rpc hs with
  | some t => (t, false)
  | none => (hs, false)

/-- Line 222, `self.client = RPCClient()`: a fresh, not-yet-connected
client replaces the current one. -/
def newClient (hs : List Bool) : List Bool := hs ++ [false]

/-- Lines 223-225, `await self.client.connect_rpc(...)`: on success the
current handle becomes live, on failure it stays unconnected. -/
def connectStep (ok : Bool) (hs : List Bool) : List Bool :=
  if ok then hs.dropLast ++ [true] else hs

/-- Handle states traversed by one outer iteration of the loop (src/wand/
gui.py lines 207-231): the guarded close always runs first; when a server
is assigned, a fresh RPCClient replaces `self.client` and the connect
attempt follows. -/
def outerConnectPhase (hs : List Bool) (serverAssigned connectOk : Bool) :
    List (List Bool) :=
  let h1 := (guardedClose hs).1
  if serverAssigned then
    [hs, h1, newClient h1, connectStep connectOk (newClient h1)]
  else
    [hs, h1]

/-- Invariant of the handle list: every handle other than the current one
has been closed. -/
def handleInv (hs : List Bool) : Prop := ∀ b ∈ hs.dropLast, b = false

/-- Concrete widget state used by witnesses and counterexamples. -/
def gui0 : GuiState :=
  { fast_mode_checked := false
    auto_exposure_checked := false
    f_ref_value := 461.5
    exposure_value := fun _ => 7 }

/-- Concrete command-line arguments used by witnesses and counterexamples. -/
def args0 : Args := { poll_time_fast := 1, poll_time := 10 }

theorem runCalls_ok (fails : RemoteCall → Bool) (l : List RemoteCall)
    (h : ∀ c ∈ l, fails c = false) : runCalls fails l = (l, true) := by
  induction l with
  | nil => rfl
  | cons c cs ih =>
      simp only [runCalls]
      rw [h c (List.mem_cons_self c cs)]
      simp [ih fun d hd => h d (List.mem_cons_of_mem _ hd)]

theorem drain_ok (fails : RemoteCall → Bool) (gui : GuiState) (laser : String)
    (q : List Intent) (h : ∀ c, fails c = false) :
    drain fails gui laser q = ((q.map (cbCalls gui laser)).flatten, [], true) := by
  induction q with
  | nil => rfl
  | cons cb rest ih =>
      simp only [drain]
      rw [runCalls_ok fails _ (fun c _ => h c)]
      simp [ih]

theorem refresh_isSome_iff (gui : GuiState) (args : Args) (laser : String)
    (freq_ts osa_ts now : ℚ) :
    (refreshStep gui args laser freq_ts osa_ts now).1.isSome ↔
      next_measurement_in (min freq_ts osa_ts)
        (pollChoice gui.fast_mode_checked args).1 now ≤ 0 := by
  unfold refreshStep
  by_cases h : next_measurement_in (min freq_ts osa_ts)
      (pollChoice gui.fast_mode_checked args).1 now ≤ 0 <;>
    simp [h]

/-- C1: the loop's computed time-until-due equals (t + p) - now, is ≤ 0
exactly when now - t ≥ p, decreases monotonically as now advances, and in
the refresh step of an inner-cycle iteration a measurement request is
issued exactly when this value is ≤ 0. -/
theorem C1_time_until_due (p t now now2 : ℚ) :
    next_measurement_in t p now = (t + p) - now ∧
    (next_measurement_in t p now ≤ 0 ↔ p ≤ now - t) ∧
    (now ≤ now2 → next_measurement_in t p now2 ≤ next_measurement_in t p now) ∧
    (now < now2 → next_measurement_in t p now2 < next_measurement_in t p now) ∧
    ∀ (gui : GuiState) (args : Args) (laser : String) (freq_ts osa_ts : ℚ),
      ((refreshStep gui args laser freq_ts osa_ts now).1.isSome ↔
        next_measurement_in (min freq_ts osa_ts)
          (pollChoice gui.fast_mode_checked args).1 now ≤ 0) := by
  refine ⟨rfl, ?_, ?_, ?_, ?_⟩
  · unfold next_measurement_in
    constructor <;> intro h <;> linarith
  · intro h
    unfold next_measurement_in
    linarith
  · intro h
    unfold next_measurement_in
    linarith
  · intro gui args laser freq_ts osa_ts
    exact refresh_isSome_iff gui args laser freq_ts osa_ts now

/-- Witness for C1 at p = 2, t = 1, now advancing from 3 to 4. -/
theorem C1_time_until_due_witness :
    (3:ℚ) < 4 ∧ next_measurement_in 1 2 4 < next_measurement_in 1 2 3 :=
  ⟨by norm_num, (C1_time_until_due 2 1 3 4).2.2.2.1 (by norm_num)⟩

/-- C2: the governing staleness timestamp used by the refresh step is the
minimum of the frequency-measurement and trace timestamps, so a refresh is
due as soon as either stream is stale; when t1 ≤ t2 the earlier timestamp
governs the whole step. -/
theorem C2_governing_staleness (gui : GuiState) (args : Args) (laser : String)
    (t1 t2 now : ℚ) :
    ((refreshStep gui args laser t1 t2 now).1.isSome ↔
      next_measurement_in t1 (pollChoice gui.fast_mode_checked args).1 now ≤ 0 ∨
      next_measurement_in t2 (pollChoice gui.fast_mode_checked args).1 now ≤ 0) ∧
    (t1 ≤ t2 →
      refreshStep gui args laser t1 t2 now = refreshStep gui args laser t1 t1 now) := by
  constructor
  · rw [refresh_isSome_iff]
    unfold next_measurement_in
    rcases le_total t1 t2 with h | h
    · rw [min_eq_left h]
      constructor
      · intro hle
        exact Or.inl hle
      · rintro (hle | hle) <;> linarith
    · rw [min_eq_right h]
      constructor
      · intro hle
        exact Or.inr hle
      · rintro (hle | hle) <;> linarith
  · intro h
    unfold refreshStep
    rw [min_eq_left h, min_self]

/-- Witness for C2 at t1 = 1 ≤ t2 = 6, now = 5: the stale frequency stream
alone makes the refresh due. -/
theorem C2_governing_staleness_witness :
    ((refreshStep gui0 args0 "l" 1 6 5).1.isSome ↔
      next_measurement_in 1 (pollChoice gui0.fast_mode_checked args0).1 5 ≤ 0 ∨
      next_measurement_in 6 (pollChoice gui0.fast_mode_checked args0).1 5 ≤ 0) ∧
    refreshStep gui0 args0 "l" 1 6 5 = refreshStep gui0 args0 "l" 1 1 5 :=
  ⟨(C2_governing_staleness gui0 args0 "l" 1 6 5).1,
   (C2_governing_staleness gui0 args0 "l" 1 6 5).2 (by norm_num)⟩

/-- C9: when fast_mode is checked the refresh step uses the fast poll
interval and FAST_MODE_PRIORITY, otherwise the regular poll interval and
REGULAR_UPDATE_PRIORITY, the issued request carries exactly that priority
and interval, and FAST_MODE_PRIORITY denotes strictly higher urgency than
REGULAR_UPDATE_PRIORITY. -/
theorem C9_priority_selection (gui : GuiState) (args : Args) (laser : String)
    (freq_ts osa_ts now : ℚ) (c : RemoteCall)
    (h : (refreshStep gui args laser freq_ts osa_ts now).1 = some c) :
    (gui.fast_mode_checked = true →
      pollChoice gui.fast_mode_checked args = (args.poll_time_fast, FAST_MODE_PRIORITY) ∧
      c = RemoteCall.get_freq laser args.poll_time_fast FAST_MODE_PRIORITY true true true) ∧
    (gui.fast_mode_checked = false →
      pollChoice gui.fast_mode_checked args = (args.poll_time, REGULAR_UPDATE_PRIORITY) ∧
      c = RemoteCall.get_freq laser args.poll_time REGULAR_UPDATE_PRIORITY true true true) ∧
    outranks FAST_MODE_PRIORITY REGULAR_UPDATE_PRIORITY := by
  simp only [refreshStep] at h
  split at h
  · simp only [Option.some.injEq] at h
    subst h
    cases hf : gui.fast_mode_checked <;>
      simp [pollChoice, hf, outranks, FAST_MODE_PRIORITY, REGULAR_UPDATE_PRIORITY]
  · simp at h

/-- Witness for C9: fast mode checked, both streams stale at now = 5. -/
theorem C9_priority_selection_witness :
    (refreshStep { gui0 with fast_mode_checked := true } args0 "l" 0 0 5).1 =
      some (RemoteCall.get_freq "l" args0.poll_time_fast FAST_MODE_PRIORITY true true true) ∧
    ({ gui0 with fast_mode_checked := true } : GuiState).fast_mode_checked = true ∧
    pollChoice true args0 = (args0.poll_time_fast, FAST_MODE_PRIORITY) ∧
    outranks FAST_MODE_PRIORITY REGULAR_UPDATE_PRIORITY := by
  have h : (refreshStep { gui0 with fast_mode_checked := true } args0 "l" 0 0 5).1 =
      some (RemoteCall.get_freq "l" args0.poll_time_fast FAST_MODE_PRIORITY true true true) := by
    norm_num [refreshStep, pollChoice, next_measurement_in, args0]
  refine ⟨h, rfl, ?_, ?_⟩
  · exact ((C9_priority_selection _ args0 "l" 0 0 5 _ h).1 rfl).1
  · exact (C9_priority_selection _ args0 "l" 0 0 5 _ h).2.2

theorem allFalse_count (as : List Bool) (h : ∀ b ∈ as, b = false) :
    as.count true = 0 := by
  rw [List.count_eq_zero]
  intro hmem
  exact Bool.true_eq_false.mp (h true hmem)

theorem guardedClose_concat (as : List Bool) (a : Bool) :
    (guardedClose (as ++ [a])).1 = as ++ [false] := by
  cases as with
  | nil => rfl
  | cons x t =>
      show ((x :: (t ++ [a])).dropLast ++ [false], false).1 = x :: t ++ [false]
      rw [← List.cons_append, List.dropLast_concat, List.cons_append]

theorem handleInv_liveCount (hs : List Bool) (h : handleInv hs) : liveCount hs ≤ 1 := by
  rcases List.eq_nil_or_concat hs with rfl | ⟨as, a, rfl⟩
  · simp [liveCount]
  · unfold handleInv at h
    rw [List.concat_eq_append, List.dropLast_concat] at h
    unfold liveCount
    rw [List.concat_eq_append, List.count_append, allFalse_count as h]
    cases a <;> simp

theorem guardedClose_all_closed (hs : List Bool) (h : handleInv hs) :
    handleInv (guardedClose hs).1 ∧ liveCount (guardedClose hs).1 = 0 := by
  rcases List.eq_nil_or_concat hs with rfl | ⟨as, a, rfl⟩
  · exact ⟨h, rfl⟩
  · unfold handleInv at h
    rw [List.concat_eq_append, List.dropLast_concat] at h
    rw [List.concat_eq_append, guardedClose_concat]
    constructor
    · unfold handleInv
      rw [List.dropLast_concat]
      exact h
    · unfold liveCount
      rw [List.count_append, allFalse_count as h]
      simp

/-- C7: starting from any handle list satisfying the single-owner
invariant, every point of an outer iteration keeps the invariant and holds
at most one live handle; after the guarded close (which precedes every
connection attempt) no handle is live; the fresh client created for the
connect attempt is itself not live; the guarded close never lets an
exception escape; and closing is idempotent. -/
theorem C7_single_live_handle (hs : List Bool) (assigned ok : Bool)
    (hinv : handleInv hs) :
    (∀ t ∈ outerConnectPhase hs assigned ok, handleInv t ∧ liveCount t ≤ 1) ∧
    liveCount (guardedClose hs).1 = 0 ∧
    liveCount (newClient (guardedClose hs).1) = 0 ∧
    (∀ t : List Bool, (guardedClose t).2 = false) ∧
    (∀ t : List Bool, (guardedClose (guardedClose t).1).1 = (guardedClose t).1) := by
  obtain ⟨hinv1, hlive1⟩ := guardedClose_all_closed hs hinv
  have hall : ∀ b ∈ (guardedClose hs).1, b = false := by
    intro b hb
    cases b
    · rfl
    · exfalso
      have : 0 < liveCount (guardedClose hs).1 := List.count_pos_iff.mpr hb
      omega
  have hnewinv : handleInv (newClient (guardedClose hs).1) := by
    unfold handleInv newClient
    rw [List.dropLast_concat]
    exact hall
  have hnewlive : liveCount (newClient (guardedClose hs).1) = 0 := by
    unfold liveCount newClient
    rw [List.count_append]
    unfold liveCount at hlive1
    rw [hlive1]
    simp
  have hconn : ∀ b, handleInv (connectStep b (newClient (guardedClose hs).1)) := by
    intro b
    cases b
    · simpa [connectStep] using hnewinv
    · unfold connectStep newClient
      simp only [if_pos]
      unfold handleInv
      rw [List.dropLast_concat, List.dropLast_concat]
      exact hall
  refine ⟨?_, hlive1, hnewlive, ?_, ?_⟩
  · intro t ht
    unfold outerConnectPhase at ht
    cases assigned <;>
      simp only [Bool.false_eq_true, if_true, if_false, List.mem_cons,
        List.not_mem_nil, or_false] at ht
    · rcases ht with rfl | rfl
      · exact ⟨hinv, handleInv_liveCount t hinv⟩
      · exact ⟨hinv1, handleInv_liveCount _ hinv1⟩
    · rcases ht with rfl | rfl | rfl | rfl
      · exact ⟨hinv, handleInv_liveCount t hinv⟩
      · exact ⟨hinv1, handleInv_liveCount _ hinv1⟩
      · exact ⟨hnewinv, handleInv_liveCount _ hnewinv⟩
      · exact ⟨hconn ok, handleInv_liveCount _ (hconn ok)⟩
  · intro t
    unfold guardedClose
    cases hc : close_rpc t <;> rfl
  · intro t
    rcases List.eq_nil_or_concat t with rfl | ⟨as, a, rfl⟩
    · rfl
    · rw [List.concat_eq_append, guardedClose_concat, guardedClose_concat]

/-- Witness for C7 starting from a handle list with one live handle. -/
theorem C7_single_live_handle_witness :
    handleInv [false, true] ∧
    liveCount (guardedClose [false, true]).1 = 0 ∧
    ∀ t ∈ outerConnectPhase [false, true] true true, handleInv t ∧ liveCount t ≤ 1 := by
  have hinv : handleInv [false, true] := by
    intro b hb
    simpa using hb
  exact ⟨hinv, (C7_single_live_handle [false, true] true true hinv).2.1,
    (C7_single_live_handle [false, true] true true hinv).1⟩

/-- C6: with no dispatch failures, a drain dispatches the calls of the
queued intents in exactly their arrival order (FIFO across the whole
queue, regardless of kind), one intent at a time, and empties the queue;
in particular three intents A, B, C enqueued in that order are dispatched
as A's calls, then B's, then C's. -/
theorem C6_fifo_drain (fails : RemoteCall → Bool) (gui : GuiState) (laser : String)
    (q : List Intent) (A B C : Intent) (h : ∀ c, fails c = false) :
    drain fails gui laser q = ((q.map (cbCalls gui laser)).flatten, [], true) ∧
    (drain fails gui laser [A, B, C]).1 =
      cbCalls gui laser A ++ (cbCalls gui laser B ++ cbCalls gui laser C) := by
  refine ⟨drain_ok fails gui laser q h, ?_⟩
  rw [drain_ok fails gui laser [A, B, C] h]
  simp

/-- Witness for C6 on the queue [fast_mode, f_ref, exposure 1]. -/
theorem C6_fifo_drain_witness :
    drain (fun _ => false) gui0 "l"
        [{ tag := "fast_mode" }, { tag := "f_ref" }, { tag := "exposure", arg := 1 }] =
      (([{ tag := "fast_mode" }, { tag := "f_ref" },
          { tag := "exposure", arg := 1 }].map (cbCalls gui0 "l")).flatten, [], true) ∧
    (drain (fun _ => false) gui0 "l"
        [{ tag := "fast_mode" }, { tag := "f_ref" }, { tag := "exposure", arg := 1 }]).1 =
      cbCalls gui0 "l" { tag := "fast_mode" } ++
        (cbCalls gui0 "l" { tag := "f_ref" } ++
          cbCalls gui0 "l" { tag := "exposure", arg := 1 }) :=
  C6_fifo_drain (fun _ => false) gui0 "l"
    [{ tag := "fast_mode" }, { tag := "f_ref" }, { tag := "exposure", arg := 1 }]
    { tag := "fast_mode" } { tag := "f_ref" } { tag := "exposure", arg := 1 }
    (fun _ => rfl)

/-- C10: an intent whose tag is none of fast_mode, auto_expose, f_ref or
exposure issues no remote call; the drain deletes it from the queue and
continues with the remaining intents exactly as if it had not been there,
raising nothing. -/
theorem C10_unknown_kind (fails : RemoteCall → Bool) (gui : GuiState) (laser : String)
    (cb : Intent) (rest : List Intent)
    (h1 : cb.tag ≠ "fast_mode") (h2 : cb.tag ≠ "auto_expose")
    (h3 : cb.tag ≠ "f_ref") (h4 : cb.tag ≠ "exposure") :
    cbCalls gui laser cb = [] ∧
    drain fails gui laser (cb :: rest) = drain fails gui laser rest := by
  have hc : cbCalls gui laser cb = [] := by
    simp [cbCalls, h1, h2, h3, h4]
  refine ⟨hc, ?_⟩
  simp [drain, hc, runCalls]

/-- Witness for C10 on an intent tagged "bogus" ahead of an auto_expose
intent. -/
theorem C10_unknown_kind_witness :
    cbCalls gui0 "l" { tag := "bogus" } = [] ∧
    drain (fun _ => false) gui0 "l" [{ tag := "bogus" }, { tag := "auto_expose" }] =
      drain (fun _ => false) gui0 "l" [{ tag := "auto_expose" }] :=
  C10_unknown_kind (fun _ => false) gui0 "l" { tag := "bogus" }
    [{ tag := "auto_expose" }]
    (by decide) (by decide) (by decide) (by decide)

/-- C3 counterexample: with every remote call failing, draining the queue
[fast_mode] attempts the dispatch first and never reaches the removal, so
the intent is still in the queue afterwards, and a later drain of that
leftover queue attempts the very same call again: the failed intent is
retried, not dropped. -/
theorem C3_counterexample :
    drain (fun _ => true) gui0 "l" [{ tag := "fast_mode" }] =
      ([RemoteCall.set_fast_mode "l" false], [{ tag := "fast_mode" }], false) ∧
    (drain (fun _ => true) gui0 "l"
        (drain (fun _ => true) gui0 "l" [{ tag := "fast_mode" }]).2.1).1 =
      [RemoteCall.set_fast_mode "l" false] := by
  constructor <;> rfl

/-- C3 amended: during a drain each pending intent is removed only after
its remote-update call returns successfully; an intent whose dispatch
fails remains at the head of the queue together with everything behind it,
so it is retried on a later cycle (at-least-once rather than at-most-once
delivery). -/
theorem C3_removed_after_success (fails : RemoteCall → Bool) (gui : GuiState)
    (laser : String) (cb : Intent) (rest : List Intent) (c : RemoteCall)
    (hc : cbCalls gui laser cb = [c]) :
    (fails c = true →
      drain fails gui laser (cb :: rest) = ([c], cb :: rest, false)) ∧
    (fails c = false →
      drain fails gui laser (cb :: rest) =
        (c :: (drain fails gui laser rest).1, (drain fails gui laser rest).2)) := by
  constructor <;> intro hf <;> simp [drain, hc, runCalls, hf]

/-- Witness for C3 amended: a failing auto_expose dispatch leaves the queue
[auto_expose, exposure 0] untouched. -/
theorem C3_removed_after_success_witness :
    drain (fun _ => true) gui0 "l" [{ tag := "auto_expose" }, { tag := "exposure" }] =
      ([RemoteCall.set_auto_exposure "l" false],
       [{ tag := "auto_expose" }, { tag := "exposure" }], false) :=
  (C3_removed_after_success (fun _ => true) gui0 "l" { tag := "auto_expose" }
    [{ tag := "exposure" }] (RemoteCall.set_auto_exposure "l" false) rfl).1 rfl

/-- Failure oracle for the C4 counterexample: exactly the set_fast_mode
call raises. -/
def failsFastMode : RemoteCall → Bool
  | RemoteCall.set_fast_mode _ _ => true
  | _ => false

/-- C4 counterexample: on the queue [fast_mode, auto_expose] where only the
fast_mode dispatch fails, the drain attempts just the failing call: the
already-queued auto_expose intent is not dispatched in the same cycle. -/
theorem C4_counterexample :
    drain failsFastMode gui0 "l" [{ tag := "fast_mode" }, { tag := "auto_expose" }] =
      ([RemoteCall.set_fast_mode "l" false],
       [{ tag := "fast_mode" }, { tag := "auto_expose" }], false) ∧
    RemoteCall.set_auto_exposure "l" false ∉
      (drain failsFastMode gui0 "l"
        [{ tag := "fast_mode" }, { tag := "auto_expose" }]).1 := by
  refine ⟨rfl, ?_⟩
  intro hmem
  have h : (drain failsFastMode gui0 "l"
      [{ tag := "fast_mode" }, { tag := "auto_expose" }]).1 =
      [RemoteCall.set_fast_mode "l" false] := rfl
  rw [h] at hmem
  simp at hmem

/-- C4 amended: a failing dispatch aborts the drain for that cycle: the
intents ahead of the failure have been dispatched, the failing intent and
every intent behind it remain queued in order, and none of the later
intents is dispatched in that cycle. -/
theorem C4_failure_aborts_drain (fails : RemoteCall → Bool) (gui : GuiState)
    (laser : String) (pre post : List Intent) (cb : Intent) (c : RemoteCall)
    (hpre : ∀ cb2 ∈ pre, ∀ c2 ∈ cbCalls gui laser cb2, fails c2 = false)
    (hc : cbCalls gui laser cb = [c]) (hf : fails c = true) :
    drain fails gui laser (pre ++ cb :: post) =
      ((pre.map (cbCalls gui laser)).flatten ++ [c], cb :: post, false) := by
  induction pre with
  | nil => simp [drain, hc, runCalls, hf]
  | cons p ps ih =>
      have hp := hpre p (List.mem_cons_self p ps)
      have hps : ∀ cb2 ∈ ps, ∀ c2 ∈ cbCalls gui laser cb2, fails c2 = false :=
        fun cb2 h2 => hpre cb2 (List.mem_cons_of_mem _ h2)
      simp only [List.cons_append, drain]
      rw [runCalls_ok fails _ hp]
      simp [ih hps]

/-- Witness for C4 amended: auto_expose succeeds, the fast_mode dispatch
fails, the exposure intent behind it stays queued undispatched. -/
theorem C4_failure_aborts_drain_witness :
    drain failsFastMode gui0 "l"
        [{ tag := "auto_expose" }, { tag := "fast_mode" }, { tag := "exposure", arg := 1 }] =
      (([{ tag := "auto_expose" }].map (cbCalls gui0 "l")).flatten ++
        [RemoteCall.set_fast_mode "l" false],
       [{ tag := "fast_mode" }, { tag := "exposure", arg := 1 }], false) :=
  C4_failure_aborts_drain failsFastMode gui0 "l"
    [{ tag := "auto_expose" }] [{ tag := "exposure", arg := 1 }]
    { tag := "fast_mode" } (RemoteCall.set_fast_mode "l" false)
    (by decide) rfl rfl

/-- C5 counterexample: two duplicate f_ref intents drained with no failures
produce two identical set_reference_freq network calls, not one. -/
theorem C5_counterexample :
    (drain (fun _ => false) gui0 "l" [{ tag := "f_ref" }, { tag := "f_ref" }]).1 =
      [RemoteCall.set_reference_freq "l" (gui0.f_ref_value * 1000000000000),
       RemoteCall.set_reference_freq "l" (gui0.f_ref_value * 1000000000000)] ∧
    (drain (fun _ => false) gui0 "l" [{ tag := "f_ref" }, { tag := "f_ref" }]).1.length ≠ 1 := by
  have h : (drain (fun _ => false) gui0 "l" [{ tag := "f_ref" }, { tag := "f_ref" }]).1 =
      [RemoteCall.set_reference_freq "l" (gui0.f_ref_value * 1000000000000),
       RemoteCall.set_reference_freq "l" (gui0.f_ref_value * 1000000000000)] := rfl
  refine ⟨h, ?_⟩
  rw [h]
  simp

/-- C5 amended: duplicate intents of the same kind are not collapsed: each
occurrence yields its own network call (each re-reading the same current
widget value, so the calls are identical), while FIFO order across the
queue is preserved and a failure-free drain empties the queue. -/
theorem C5_duplicates_not_collapsed (fails : RemoteCall → Bool) (gui : GuiState)
    (laser : String) (cb : Intent) (rest : List Intent)
    (h : ∀ c, fails c = false) :
    drain fails gui laser (cb :: cb :: rest) =
      (cbCalls gui laser cb ++ cbCalls gui laser cb ++
        (rest.map (cbCalls gui laser)).flatten, [], true) := by
  rw [drain_ok fails gui laser (cb :: cb :: rest) h]
  simp

/-- Witness for C5 amended: two exposure intents for channel 0 ahead of a
fast_mode intent. -/
theorem C5_duplicates_not_collapsed_witness :
    drain (fun _ => false) gui0 "l"
        [{ tag := "exposure" }, { tag := "exposure" }, { tag := "fast_mode" }] =
      (cbCalls gui0 "l" { tag := "exposure" } ++ cbCalls gui0 "l" { tag := "exposure" } ++
        ([{ tag := "fast_mode" }].map (cbCalls gui0 "l")).flatten, [], true) :=
  C5_duplicates_not_collapsed (fun _ => false) gui0 "l" { tag := "exposure" }
    [{ tag := "fast_mode" }] (fun _ => rfl)

/-- C8 counterexample: with the measurement request failing (queue empty,
data stale), the inner-cycle iteration answers the error with the fixed
0.1 s backoff and restarts — but logs nothing, so the error is caught and
answered yet not logged. -/
theorem C8_counterexample :
    innerCycleStep (fun _ => true) gui0 args0 "l" [] 0 0 20 =
      { calls := [RemoteCall.get_freq "l" args0.poll_time REGULAR_UPDATE_PRIORITY true true true],
        logs := [], sleeps := [1/10], queue := [], waitTimeout := none } ∧
    (innerCycleStep (fun _ => true) gui0 args0 "l" [] 0 0 20).logs = [] := by
  have h : innerCycleStep (fun _ => true) gui0 args0 "l" [] 0 0 20 =
      { calls := [RemoteCall.get_freq "l" args0.poll_time REGULAR_UPDATE_PRIORITY true true true],
        logs := [], sleeps := [1/10], queue := [], waitTimeout := none } := by
    norm_num [innerCycleStep, drain, refreshStep, pollChoice, next_measurement_in,
      gui0, args0, REGULAR_UPDATE_PRIORITY]
  exact ⟨h, by rw [h]⟩

/-- C8 amended: every error raised during the inner cycle's drain or
refresh steps is caught and answered with the fixed 0.1 s backoff sleep
before the inner cycle restarts from the top (nothing is logged by this
handler); an iteration either takes that backoff path or reaches the
timed wait, so no error escapes the inner cycle. -/
theorem C8_backoff_no_log (fails : RemoteCall → Bool) (gui : GuiState) (args : Args)
    (laser : String) (queue : List Intent) (fts ots now : ℚ) :
    (innerCycleStep fails gui args laser queue fts ots now).logs = [] ∧
    ((innerCycleStep fails gui args laser queue fts ots now).sleeps = [1/10] ∧
       (innerCycleStep fails gui args laser queue fts ots now).waitTimeout = none ∨
     (innerCycleStep fails gui args laser queue fts ots now).sleeps = [] ∧
       (innerCycleStep fails gui args laser queue fts ots now).waitTimeout.isSome) ∧
    (((drain fails gui laser queue).2.2 = false ∨
        ∃ c, (refreshStep gui args laser fts ots now).1 = some c ∧ fails c = true) →
      (innerCycleStep fails gui args laser queue fts ots now).sleeps = [1/10] ∧
      (innerCycleStep fails gui args laser queue fts ots now).waitTimeout = none) := by
  unfold innerCycleStep
  rcases hdr : drain fails gui laser queue with ⟨dcalls, drest, dok⟩
  cases dok
  · simp [hdr]
  · rcases hr : (refreshStep gui args laser fts ots now).1 with _ | c
    · simp [hdr, hr]
    · cases hf : fails c
      · simp [hdr, hr, hf]
      · simp [hdr, hr, hf]

/-- Witness for C8 amended: a failing drain (auto_expose dispatch raising)
takes the backoff path. -/
theorem C8_backoff_no_log_witness :
    (innerCycleStep (fun _ => true) gui0 args0 "l" [{ tag := "auto_expose" }] 0 0 1).sleeps =
      [1/10] ∧
    (innerCycleStep (fun _ => true) gui0 args0 "l" [{ tag := "auto_expose" }] 0 0 1).waitTimeout =
      none :=
  (C8_backoff_no_log (fun _ => true) gui0 args0 "l" [{ tag := "auto_expose" }] 0 0 1).2.2
    (Or.inl rfl)

end Wand
